import Mathlib

/-!
The gdk-pixbuf SVG loader with the lunasvg backend: its incremental-load state machine.

A shallow embedding of `src/libpixbufloader-svg.cc`: the three module entry
points `begin_load`, `load_increment` and `stop_load`, the session `Context`,
and the release routine `data_free`.

The external collaborators are not part of the repository and are taken as
parameters of the embedding:

* `Lunasvg`: the document loader, the intrinsic size and the rasterizer;
* `Gio`: the gzip converter stream that is spliced into a memory stream;
* the host callbacks stored in the `Context`.

Effects that the host can observe (callback invocations, releases, data handed
to the parser or to the rasterizer) are recorded in order in a trace of
`Event`s.  A write through a null pointer and a call through a null function
pointer end the run with `Exit.segfault`; `g_abort()` ends it with
`Exit.aborted`.
-/

namespace PixbufLoaderSvg

/-! ## Data model -/

/-- One input byte (`guchar`). -/
abbrev guchar := Fin 256

/-- The caller-context token (`gpointer user_data`), passed through unmodified. -/
abbrev gpointer := Nat

/-- Address of a host callback; a null function pointer is `none` in the `Context`. -/
abbrev FuncPtr := Nat

/-- A GLib error object: domain quark, code, message. -/
structure GError where
  domain : String
  code : Int
  message : String
deriving DecidableEq, Repr

/-- The error domain `G_IO_ERROR`. -/
def G_IO_ERROR : String := "g-io-error-quark"

/-- The code `G_IO_ERROR_FAILED` of `GIOErrorEnum`. -/
def G_IO_ERROR_FAILED : Int := 0

/-- Constructor `g_error_new (domain, code, message)`. -/
def g_error_new (domain : String) (code : Int) (message : String) : GError :=
  { domain := domain, code := code, message := message }

/-- The out-parameter `GError **error`: `none` is a null pointer, `some v` is a
location that currently holds `v` (`v = none` meaning `*error == nullptr`). -/
abbrev ErrorPtr := Option (Option GError)

/-- How GLib functions report through a `GError **`: store only when non-null. -/
def g_propagate (error : ErrorPtr) (e : GError) : ErrorPtr :=
  error.map (fun _ => some e)

/-- The size negotiation callback `GdkPixbufModuleSizeFunc (gint *w, gint *h, gpointer)`:
it receives the two integers and the token and leaves two integers behind. -/
abbrev SizeFunc := Int → Int → gpointer → Int × Int

/-- The raster result `lunasvg::Bitmap`. -/
structure Bitmap where
  valid : Bool
  data : List guchar
  width : Int
  height : Int
  stride : Int
deriving DecidableEq, Repr

/-- The image handle built by `gdk_pixbuf_new_from_data`: the pixel storage,
the fixed format, the geometry, and the datum handed to the release routine
`data_free` when the host drops the handle. -/
structure GdkPixbuf where
  pixels : List guchar
  has_alpha : Bool
  bits_per_sample : Nat
  width : Int
  height : Int
  rowstride : Int
  destroy_fn_data : Bitmap
deriving DecidableEq, Repr

/-- Constructor `gdk_pixbuf_new_from_data (data, GDK_COLORSPACE_RGB, has_alpha,
bits, width, height, rowstride, data_free, bmap)`. -/
def gdk_pixbuf_new_from_data (data : List guchar) (has_alpha : Bool) (bits : Nat)
    (width height rowstride : Int) (destroy_fn_data : Bitmap) : GdkPixbuf :=
  { pixels := data, has_alpha := has_alpha, bits_per_sample := bits,
    width := width, height := height, rowstride := rowstride,
    destroy_fn_data := destroy_fn_data }

/-- Getter `gdk_pixbuf_get_width`. -/
def gdk_pixbuf_get_width (pbuf : GdkPixbuf) : Int := pbuf.width

/-- Getter `gdk_pixbuf_get_height`. -/
def gdk_pixbuf_get_height (pbuf : GdkPixbuf) : Int := pbuf.height

/-- Result of a call that may throw `std::bad_alloc`. -/
inductive Alloc (α : Type) where
  | done (a : α)
  | bad_alloc
deriving DecidableEq, Repr

/-- The vector-graphics engine, as used by `stop_load`:
`loadFromData` yields a document or a null `unique_ptr`;
`width`/`height` are `gint (doc->width ())` and `gint (doc->height ())`;
`renderToBitmap` receives the two `gint`s of the call site. -/
structure Lunasvg (Document : Type) where
  loadFromData : List guchar → Alloc (Option Document)
  width : Document → Int
  height : Document → Int
  renderToBitmap : Document → Int → Int → Alloc Bitmap

/-- The GIO streams used for decompression: `splice` is
`g_output_stream_splice` of the whole input through a gzip
`GZlibDecompressor` into a memory stream (the bytes written, or the error of
a negative return); `close` is the final `g_output_stream_close (mstream)`
(`none` for `TRUE`). -/
structure Gio where
  splice : List guchar → Except GError (List guchar)
  close : List guchar → Option GError

/-- The per-load session (`struct Context`). -/
structure Context where
  filebuf : List guchar
  size_func : Option SizeFunc
  prepared_func : Option FuncPtr
  updated_func : Option FuncPtr
  user_data : gpointer

/-- Observable steps of `stop_load`, in program order. -/
inductive Event where
  /-- The decompression branch was entered and the input spliced. -/
  | splice (input : List guchar)
  /-- Call `g_memory_output_stream_steal_data`: the scratch buffer now belongs to `bufp`. -/
  | steal_data (bufp : Option (List guchar))
  /-- Last `g_object_unref (mstream)`; `owns_data` tells whether the stream still owns
  its buffer (and then frees it) or the buffer was stolen before. -/
  | unref_mstream (owns_data : Bool)
  /-- Call `lunasvg::Document::loadFromData` on these bytes. -/
  | loadFromData (bytes : List guchar)
  /-- Call `g_free (bufp)`. -/
  | g_free (bufp : Option (List guchar))
  /-- Call `ctx->size_func (&w, &h, ctx->user_data)` with these initial values. -/
  | size_func (w h : Int) (user_data : gpointer)
  /-- Call `doc->renderToBitmap (w, h)`. -/
  | renderToBitmap (w h : Int)
  /-- Call `data_free (nullptr, bmap)`. -/
  | data_free (bmap : Bitmap)
  /-- Call `ctx->prepared_func (pbuf, nullptr, ctx->user_data)`. -/
  | prepared_func (f : FuncPtr) (pbuf : GdkPixbuf) (user_data : gpointer)
  /-- Call `ctx->updated_func (pbuf, x, y, w, h, ctx->user_data)`. -/
  | updated_func (f : FuncPtr) (pbuf : GdkPixbuf) (x y w h : Int) (user_data : gpointer)
  /-- Call `Context::free (ctx)`: destroys `filebuf` and frees the session. -/
  | Context_free
deriving DecidableEq, Repr

/-- How a run of `stop_load` ends. -/
inductive Exit where
  | returned (b : Bool)
  | segfault
  | aborted
deriving DecidableEq, Repr

/-- Everything the host can observe of one `stop_load` call. -/
structure Outcome where
  exit : Exit
  error : ErrorPtr
  trace : List Event
deriving DecidableEq, Repr

/-! ## The loader -/

/-- Static member `Context::free (ctx)`: runs the destructor, which releases
`filebuf`, and frees the session object. -/
def Context.free (_ctx : Context) : List Event :=
  [Event.Context_free]

/-- Release routine `data_free (guchar *, gpointer data)`: destroys and frees
the bitmap passed as `data`; the first argument is ignored. -/
def data_free (_pixels : Option (List guchar)) (data : Bitmap) : List Event :=
  [Event.data_free data]

/-- Entry point `begin_load`: resets `*error` when given, and creates a session with an
empty `filebuf` holding the three callbacks and the token. -/
def begin_load (size_func : Option SizeFunc) (prepared_func updated_func : Option FuncPtr)
    (user_data : gpointer) (error : ErrorPtr) : Context × ErrorPtr :=
  let error := error.map (fun _ => none)
  ({ filebuf := [], size_func := size_func, prepared_func := prepared_func,
     updated_func := updated_func, user_data := user_data }, error)

/-- Entry point `load_increment`: resets `*error` when given, appends `buf[0 .. size)` at
the end of `filebuf` and returns `TRUE`. -/
def load_increment (ctx : Context) (buf : List guchar) (error : ErrorPtr) :
    Bool × Context × ErrorPtr :=
  let error := error.map (fun _ => none)
  (true, { ctx with filebuf := ctx.filebuf ++ buf }, error)

/-- The condition of line 130,
`(bufs > 2) && (bufd[0] == '\x1f') && (bufd[0] == '\x8b')`:
both comparisons read `bufd[0]` (the two operands of each are `char`s obtained
from the same byte conversion, so each is an equality of bytes). -/
def gzip_guard (bufd : List guchar) : Bool :=
  decide (bufd.length > 2) && (bufd.getD 0 0 == 0x1f) && (bufd.getD 0 0 == 0x8b)

/-- The statements of `stop_load`, with the value of the condition of line 130
given as `compressed`: the guarded reset of `*error`; the optional
decompression of lines 129-176 with its two early returns; the parse of lines
178-185, which reads `ctx->filebuf`; `g_free (bufp)`; the parse-failure exit;
size negotiation through `ctx->size_func`; the render; the invalid-bitmap exit;
the image handle and the two guarded notifications; the final release of the
session.  A store through a null `error` and a call through a null `size_func`
end the run with `Exit.segfault`; a `std::bad_alloc` ends it with
`Exit.aborted` (`g_abort ()`). -/
def stop_load_body {Document : Type} (compressed : Bool) (G : Gio) (L : Lunasvg Document)
    (ctx : Context) (error : ErrorPtr) : Outcome :=
  -- if (error) *error = nullptr;
  let error := error.map (fun _ => none)
  let bufd := ctx.filebuf
  -- lines 129-176: optional decompression; an early return, or (bufp, error, trace)
  let stage : Except Outcome (Option (List guchar) × ErrorPtr × List Event) :=
    if compressed then
      match G.splice bufd with
      | .error e =>
        -- Context::free, close and unref of the streams; mstream frees what it holds
        .error { exit := .returned false, error := g_propagate error e,
                 trace := [.splice bufd] ++ Context.free ctx ++ [.unref_mstream true] }
      | .ok out =>
        let bufp : Option (List guchar) := if out = [] then none else some out
        match G.close out with
        | some e =>
          .error { exit := .returned false, error := g_propagate error e,
                   trace := [.splice bufd, .steal_data bufp, .unref_mstream false]
                             ++ Context.free ctx }
        | none =>
          .ok (bufp, error, [.splice bufd, .steal_data bufp, .unref_mstream false])
    else .ok (none, error, [])
  match stage with
  | .error o => o
  | .ok (bufp, error, t0) =>
    -- lines 178-185: the parser reads ctx->filebuf.data () and ctx->filebuf.size ()
    match L.loadFromData ctx.filebuf with
    | .bad_alloc =>
      { exit := .aborted, error := error, trace := t0 ++ [.loadFromData ctx.filebuf] }
    | .done doc =>
      -- g_free (bufp);
      let t1 := t0 ++ [.loadFromData ctx.filebuf, .g_free bufp]
      match doc with
      | none =>
        -- *error = g_error_new (...): unguarded store
        match error with
        | none => { exit := .segfault, error := none, trace := t1 }
        | some _ =>
          { exit := .returned false,
            error := some (some (g_error_new G_IO_ERROR G_IO_ERROR_FAILED
                                  "Failed loading document.")),
            trace := t1 ++ Context.free ctx }
      | some doc =>
        let w := L.width doc
        let h := L.height doc
        -- ctx->size_func (&w, &h, ctx->user_data): unguarded call
        match ctx.size_func with
        | none => { exit := .segfault, error := error, trace := t1 }
        | some size_func =>
          let wh := size_func w h ctx.user_data
          let t2 := t1 ++ [.size_func w h ctx.user_data, .renderToBitmap wh.1 wh.2]
          match L.renderToBitmap doc wh.1 wh.2 with
          | .bad_alloc => { exit := .aborted, error := error, trace := t2 }
          | .done bmap =>
            if !bmap.valid then
              match error with
              | none => { exit := .segfault, error := none, trace := t2 }
              | some _ =>
                { exit := .returned false,
                  error := some (some (g_error_new G_IO_ERROR G_IO_ERROR_FAILED
                                        "Invalid bitmap.")),
                  trace := t2 ++ Context.free ctx ++ data_free none bmap }
            else
              let pbuf := gdk_pixbuf_new_from_data bmap.data true 8
                bmap.width bmap.height bmap.stride bmap
              let t3 := t2 ++
                (match ctx.prepared_func with
                 | some f => [Event.prepared_func f pbuf ctx.user_data]
                 | none => [])
              let t4 := t3 ++
                (match ctx.updated_func with
                 | some f => [Event.updated_func f pbuf 0 0 (gdk_pixbuf_get_width pbuf)
                                (gdk_pixbuf_get_height pbuf) ctx.user_data]
                 | none => [])
              { exit := .returned true, error := error, trace := t4 ++ Context.free ctx }

/-- Entry point `stop_load`: the statements above, the branch of line 130 being
decided by `gzip_guard` on the session buffer. -/
def stop_load {Document : Type} (G : Gio) (L : Lunasvg Document) (ctx : Context)
    (error : ErrorPtr) : Outcome :=
  stop_load_body (gzip_guard ctx.filebuf) G L ctx error

/-! ## Observations on traces -/

/-- The host callbacks among the events. -/
def Event.is_callback : Event → Bool
  | .size_func _ _ _ => true
  | .prepared_func _ _ _ => true
  | .updated_func _ _ _ _ _ _ _ => true
  | _ => false

/-- The two notification callbacks (prepared, updated). -/
def Event.is_notification : Event → Bool
  | .prepared_func _ _ _ => true
  | .updated_func _ _ _ _ _ _ _ => true
  | _ => false

/-- The size negotiation and the render request among the events. -/
def Event.is_sizing : Event → Bool
  | .size_func _ _ _ => true
  | .renderToBitmap _ _ => true
  | _ => false

/-- Releases of a bitmap through `data_free`. -/
def Event.is_data_free : Event → Bool
  | .data_free _ => true
  | _ => false

/-- The image handles handed to the host, in order of delivery. -/
def delivered : List Event → List GdkPixbuf
  | [] => []
  | .prepared_func _ pbuf _ :: t => pbuf :: delivered t
  | .updated_func _ pbuf _ _ _ _ _ :: t => pbuf :: delivered t
  | _ :: t => delivered t

/-- The byte strings handed to the document loader, in order. -/
def parsed : List Event → List (List guchar)
  | [] => []
  | .loadFromData bytes :: t => bytes :: parsed t
  | _ :: t => parsed t

/-- The host feeding a session chunk by chunk through `load_increment`. -/
def feed (ctx : Context) (chunks : List (List guchar)) : Context :=
  chunks.foldl (fun c buf => (load_increment c buf none).2.1) ctx

/-- Detection rule in the words of the specification: length at least 2, byte 0 is
0x1F and byte 1 is 0x8B. -/
def spec_is_gzip (buf : List guchar) : Bool :=
  decide (2 ≤ buf.length) && (buf.getD 0 0 == 0x1f) && (buf.getD 1 0 == 0x8b)

/-- Modelled from the spec: the contract of the external rasterizer
(`lunasvg::Document::renderToBitmap`, not part of the repository), section 4.3:
a valid bitmap rendered at a positive request has the requested width and
height, and rows of at least four bytes per pixel. -/
def renders_at_request {Document : Type} (L : Lunasvg Document) : Prop :=
  ∀ doc w h bmap, 0 < w → 0 < h → L.renderToBitmap doc w h = Alloc.done bmap →
    bmap.valid = true → bmap.width = w ∧ bmap.height = h ∧ 4 * w ≤ bmap.stride

/-! ## A concrete environment for evaluation -/

/-- Bytes of `<svg width="10" height="10"></svg>`. -/
def svg10 : List guchar :=
  [0x3c, 0x73, 0x76, 0x67, 0x20, 0x77, 0x69, 0x64, 0x74, 0x68, 0x3d, 0x22, 0x31, 0x30,
   0x22, 0x20, 0x68, 0x65, 0x69, 0x67, 0x68, 0x74, 0x3d, 0x22, 0x31, 0x30, 0x22, 0x3e,
   0x3c, 0x2f, 0x73, 0x76, 0x67, 0x3e]

/-- Bytes of `<svg width="0" height="0"></svg>`. -/
def svg0 : List guchar :=
  [0x3c, 0x73, 0x76, 0x67, 0x20, 0x77, 0x69, 0x64, 0x74, 0x68, 0x3d, 0x22, 0x30, 0x22,
   0x20, 0x68, 0x65, 0x69, 0x67, 0x68, 0x74, 0x3d, 0x22, 0x30, 0x22, 0x3e, 0x3c, 0x2f,
   0x73, 0x76, 0x67, 0x3e]

/-- Bytes of the text `not svg`. -/
def not_svg : List guchar := [0x6e, 0x6f, 0x74, 0x20, 0x73, 0x76, 0x67]

/-- The gzip stream (RFC 1952, deflate level 9, no name, mtime 0) of `svg10`. -/
def svg10_gz : List guchar :=
  [0x1f, 0x8b, 0x08, 0x00, 0x00, 0x00, 0x00, 0x00, 0x02, 0x03, 0xb3, 0x29, 0x2e, 0x4b,
   0x57, 0x28, 0xcf, 0x4c, 0x29, 0xc9, 0xb0, 0x55, 0x32, 0x34, 0x50, 0x52, 0xc8, 0x48,
   0xcd, 0x4c, 0xcf, 0x28, 0x01, 0xb3, 0xed, 0x6c, 0xf4, 0x81, 0x92, 0x76, 0x00, 0x41,
   0xbe, 0xbd, 0x38, 0x22, 0x00, 0x00, 0x00]

/-- The gzip magic followed by bytes that are no gzip stream. -/
def bad_gz : List guchar := [0x1f, 0x8b, 0x00, 0x00]

/-- A document of the sample engine: its declared size. -/
structure SampleDocument where
  width : Int
  height : Int
deriving DecidableEq, Repr

/-- The error a gzip `GZlibDecompressor` reports on corrupt input
(`G_IO_ERROR_INVALID_DATA`). -/
def sample_gzip_error : GError := g_error_new G_IO_ERROR 35 "Invalid compressed data"

/-- A sample engine: it accepts exactly `svg10` and `svg0`; a document of zero
size renders to the null bitmap, any other document to a transparent bitmap of
the requested size with packed rows. -/
def sampleLunasvg : Lunasvg SampleDocument where
  loadFromData := fun buf =>
    if buf = svg10 then .done (some { width := 10, height := 10 })
    else if buf = svg0 then .done (some { width := 0, height := 0 })
    else .done none
  width := fun d => d.width
  height := fun d => d.height
  renderToBitmap := fun d w h =>
    if d.width = 0 ∨ d.height = 0 ∨ w ≤ 0 ∨ h ≤ 0 then
      .done { valid := false, data := [], width := 0, height := 0, stride := 0 }
    else
      .done { valid := true, data := List.replicate (4 * w * h).toNat 0,
              width := w, height := h, stride := 4 * w }

/-- Sample streams: `svg10_gz` inflates to `svg10`, every other input is
rejected as corrupt; closing the memory stream succeeds. -/
def sampleGio : Gio where
  splice := fun buf => if buf = svg10_gz then .ok svg10 else .error sample_gzip_error
  close := fun _ => none

/-- A size callback that keeps the proposed dimensions. -/
def keep_size : SizeFunc := fun w h _ => (w, h)

/-- A size callback that rewrites the dimensions to (1, 1). -/
def one_by_one : SizeFunc := fun _ _ _ => (1, 1)

/-- A session as `begin_load` and one `load_increment` leave it, with all three
callbacks supplied. -/
def session (size_func : SizeFunc) (buf : List guchar) : Context :=
  (load_increment (begin_load (some size_func) (some 1) (some 2) 7 none).1 buf none).2.1

/-! ## Basic facts -/

/-- The condition of line 130 holds for no buffer: byte 0 cannot be both 0x1F and 0x8B. -/
theorem gzip_guard_eq_false (bufd : List guchar) : gzip_guard bufd = false := by
  have key : ∀ b : guchar, ((b == 0x1f) && (b == 0x8b)) = false := by
    intro b
    by_cases h : b = 0x1f
    · subst h
      decide
    · have hb : (b == 0x1f) = false := beq_eq_false_iff_ne.mpr h
      rw [hb, Bool.false_and]
  unfold gzip_guard
  rw [Bool.and_assoc, key, Bool.and_false]

/-- Feeding chunks appends their concatenation and leaves the rest of the session alone. -/
theorem feed_eq (chunks : List (List guchar)) (ctx : Context) :
    feed ctx chunks = { ctx with filebuf := ctx.filebuf ++ chunks.flatten } := by
  induction chunks generalizing ctx with
  | nil => simp [feed]
  | cons c cs ih =>
    have h := ih (load_increment ctx c none).2.1
    simp only [feed, List.foldl_cons] at h ⊢
    rw [h]
    simp [load_increment, List.append_assoc]

/-- The sample engine honours the rasterizer contract. -/
theorem sample_renders_at_request : renders_at_request sampleLunasvg := by
  intro doc w h bmap _ _ hr hv
  simp only [sampleLunasvg] at hr
  split at hr
  · cases hr
    simp at hv
  · cases hr
    simp

/-- C2: for any two chunk sequences with the same concatenation, fed through
`load_increment` to sessions created by `begin_load` with the same callbacks and
token, every `load_increment` returns TRUE, the buffer that `stop_load` sees is
that concatenation in both sessions, and the whole outcome of `stop_load`
(return value, error, callbacks fired, image delivered) is the same. -/
theorem chunking_irrelevant {Document : Type} (G : Gio) (L : Lunasvg Document)
    (size_func : Option SizeFunc) (prepared_func updated_func : Option FuncPtr)
    (user_data : gpointer) (e₀ e₁ e₂ error : ErrorPtr)
    (chunks₁ chunks₂ : List (List guchar)) (h : chunks₁.flatten = chunks₂.flatten) :
    (∀ ctx buf, (load_increment ctx buf e₀).1 = true) ∧
    (feed (begin_load size_func prepared_func updated_func user_data e₁).1 chunks₁).filebuf
      = chunks₁.flatten ∧
    (feed (begin_load size_func prepared_func updated_func user_data e₁).1 chunks₁).filebuf
      = (feed (begin_load size_func prepared_func updated_func user_data e₂).1
          chunks₂).filebuf ∧
    stop_load G L
        (feed (begin_load size_func prepared_func updated_func user_data e₁).1 chunks₁) error
      = stop_load G L
        (feed (begin_load size_func prepared_func updated_func user_data e₂).1 chunks₂)
        error := by
  refine ⟨fun _ _ => rfl, ?_, ?_, ?_⟩
  · simp [feed_eq, begin_load]
  · simp [feed_eq, begin_load, h]
  · simp [feed_eq, begin_load, h]

/-- Witness for C2: `svg10` in one chunk and split after byte 4. -/
theorem chunking_irrelevant_witness :
    [svg10].flatten = [svg10.take 4, svg10.drop 4].flatten ∧
    stop_load sampleGio sampleLunasvg
        (feed (begin_load (some keep_size) (some 1) (some 2) 7 none).1 [svg10]) (some none)
      = stop_load sampleGio sampleLunasvg
        (feed (begin_load (some keep_size) (some 1) (some 2) 7 none).1
          [svg10.take 4, svg10.drop 4]) (some none) :=
  ⟨by decide,
   (chunking_irrelevant sampleGio sampleLunasvg (some keep_size) (some 1) (some 2) 7
      none none none (some none) [svg10] [svg10.take 4, svg10.drop 4] (by decide)).2.2.2⟩

/-- C5: when the document loader returns no document for the session buffer and
the error out-parameter is given, `stop_load` returns FALSE, the error holds
the "Failed loading document." load error, the session is released, and no
callback (size, prepared, updated) is invoked. -/
theorem parse_failure_reports {Document : Type} (G : Gio) (L : Lunasvg Document)
    (ctx : Context) (slot : Option GError)
    (hparse : L.loadFromData ctx.filebuf = Alloc.done none) :
    stop_load G L ctx (some slot) =
      { exit := Exit.returned false,
        error := some (some (g_error_new G_IO_ERROR G_IO_ERROR_FAILED
                              "Failed loading document.")),
        trace := [Event.loadFromData ctx.filebuf, Event.g_free none, Event.Context_free] } ∧
    (stop_load G L ctx (some slot)).trace.filter Event.is_callback = [] := by
  have key : stop_load G L ctx (some slot) =
      { exit := Exit.returned false,
        error := some (some (g_error_new G_IO_ERROR G_IO_ERROR_FAILED
                              "Failed loading document.")),
        trace := [Event.loadFromData ctx.filebuf, Event.g_free none, Event.Context_free] } := by
    simp [stop_load, stop_load_body, gzip_guard_eq_false, hparse, Context.free]
  rw [key]
  exact ⟨rfl, by simp [Event.is_callback]⟩

/-- Witness for C5: the text `not svg`. -/
theorem parse_failure_reports_witness :
    sampleLunasvg.loadFromData (session keep_size not_svg).filebuf = Alloc.done none ∧
    (stop_load sampleGio sampleLunasvg (session keep_size not_svg) (some none)).exit
      = Exit.returned false ∧
    (stop_load sampleGio sampleLunasvg (session keep_size not_svg) (some none)).trace.filter
      Event.is_callback = [] :=
  ⟨by decide,
   congrArg Outcome.exit
     (parse_failure_reports sampleGio sampleLunasvg (session keep_size not_svg) none
       (by decide)).1,
   (parse_failure_reports sampleGio sampleLunasvg (session keep_size not_svg) none
     (by decide)).2⟩

/-- C1 fails as stated: the sample engine parses `svg0` (which is not
gzip-wrapped) and both notification callbacks are supplied, yet the rendered
bitmap is not valid, so `stop_load` returns FALSE and notifies nobody. -/
theorem parsed_but_not_delivered :
    sampleLunasvg.loadFromData (session keep_size svg0).filebuf
        = Alloc.done (some { width := 0, height := 0 }) ∧
    spec_is_gzip (session keep_size svg0).filebuf = false ∧
    (session keep_size svg0).prepared_func = some 1 ∧
    (session keep_size svg0).updated_func = some 2 ∧
    (stop_load sampleGio sampleLunasvg (session keep_size svg0) (some none)).exit
        = Exit.returned false ∧
    (stop_load sampleGio sampleLunasvg (session keep_size svg0) (some none)).trace.filter
        Event.is_notification = [] := by
  refine ⟨by decide, by decide, rfl, rfl, by decide, by decide⟩

/-- C1 (amended): when the loader parses the session buffer, the buffer is not
gzip-wrapped, the size, prepared and updated callbacks are all supplied, and
the rasterizer returns a valid bitmap for the negotiated size, `stop_load`
returns TRUE, leaves the error reset, and the notifications are exactly one
prepared call followed by one updated call on the same image, the latter with
the region (0, 0, width, height) of that image. -/
theorem valid_svg_delivered {Document : Type} (G : Gio) (L : Lunasvg Document)
    (ctx : Context) (error : ErrorPtr) (doc : Document) (f : SizeFunc) (p u : FuncPtr)
    (bmap : Bitmap)
    (hparse : L.loadFromData ctx.filebuf = Alloc.done (some doc))
    (_hplain : spec_is_gzip ctx.filebuf = false)
    (hsize : ctx.size_func = some f)
    (hprep : ctx.prepared_func = some p)
    (hupd : ctx.updated_func = some u)
    (hrender : L.renderToBitmap doc (f (L.width doc) (L.height doc) ctx.user_data).1
        (f (L.width doc) (L.height doc) ctx.user_data).2 = Alloc.done bmap)
    (hvalid : bmap.valid = true) :
    (stop_load G L ctx error).exit = Exit.returned true ∧
    (stop_load G L ctx error).error = error.map (fun _ => none) ∧
    (stop_load G L ctx error).trace.filter Event.is_notification =
      [Event.prepared_func p
         (gdk_pixbuf_new_from_data bmap.data true 8 bmap.width bmap.height bmap.stride bmap)
         ctx.user_data,
       Event.updated_func u
         (gdk_pixbuf_new_from_data bmap.data true 8 bmap.width bmap.height bmap.stride bmap)
         0 0
         (gdk_pixbuf_new_from_data bmap.data true 8 bmap.width bmap.height bmap.stride
           bmap).width
         (gdk_pixbuf_new_from_data bmap.data true 8 bmap.width bmap.height bmap.stride
           bmap).height
         ctx.user_data] := by
  simp [stop_load, stop_load_body, gzip_guard_eq_false, hparse, hsize, hprep, hupd, hrender, hvalid,
    Event.is_notification, gdk_pixbuf_get_width, gdk_pixbuf_get_height, Context.free]

/-- Witness for C1 (amended): `svg10`, all callbacks supplied, one-pixel request. -/
theorem valid_svg_delivered_witness :
    sampleLunasvg.loadFromData (session one_by_one svg10).filebuf
        = Alloc.done (some { width := 10, height := 10 }) ∧
    spec_is_gzip (session one_by_one svg10).filebuf = false ∧
    (stop_load sampleGio sampleLunasvg (session one_by_one svg10) (some none)).exit
        = Exit.returned true :=
  ⟨by decide, by decide,
   (valid_svg_delivered sampleGio sampleLunasvg (session one_by_one svg10) (some none)
      { width := 10, height := 10 } one_by_one 1 2
      { valid := true, data := [0, 0, 0, 0], width := 1, height := 1, stride := 4 }
      (by decide) (by decide) rfl rfl rfl (by decide) rfl).1⟩

/-- C9: when the loader parses the session buffer, the size callback is
supplied, the rasterizer returns a bitmap that is not valid for the negotiated
size, and the error out-parameter is given, `stop_load` returns FALSE with the
"Invalid bitmap." load error, releases the session, releases that bitmap
through `data_free` exactly once, and invokes neither prepared nor updated. -/
theorem invalid_bitmap_reports {Document : Type} (G : Gio) (L : Lunasvg Document)
    (ctx : Context) (slot : Option GError) (doc : Document) (f : SizeFunc) (bmap : Bitmap)
    (hparse : L.loadFromData ctx.filebuf = Alloc.done (some doc))
    (hsize : ctx.size_func = some f)
    (hrender : L.renderToBitmap doc (f (L.width doc) (L.height doc) ctx.user_data).1
        (f (L.width doc) (L.height doc) ctx.user_data).2 = Alloc.done bmap)
    (hinvalid : bmap.valid = false) :
    stop_load G L ctx (some slot) =
      { exit := Exit.returned false,
        error := some (some (g_error_new G_IO_ERROR G_IO_ERROR_FAILED "Invalid bitmap.")),
        trace := [Event.loadFromData ctx.filebuf, Event.g_free none,
                  Event.size_func (L.width doc) (L.height doc) ctx.user_data,
                  Event.renderToBitmap (f (L.width doc) (L.height doc) ctx.user_data).1
                    (f (L.width doc) (L.height doc) ctx.user_data).2,
                  Event.Context_free, Event.data_free bmap] } ∧
    (stop_load G L ctx (some slot)).trace.filter Event.is_data_free
      = [Event.data_free bmap] ∧
    (stop_load G L ctx (some slot)).trace.filter Event.is_notification = [] ∧
    delivered (stop_load G L ctx (some slot)).trace = [] := by
  have key : stop_load G L ctx (some slot) =
      { exit := Exit.returned false,
        error := some (some (g_error_new G_IO_ERROR G_IO_ERROR_FAILED "Invalid bitmap.")),
        trace := [Event.loadFromData ctx.filebuf, Event.g_free none,
                  Event.size_func (L.width doc) (L.height doc) ctx.user_data,
                  Event.renderToBitmap (f (L.width doc) (L.height doc) ctx.user_data).1
                    (f (L.width doc) (L.height doc) ctx.user_data).2,
                  Event.Context_free, Event.data_free bmap] } := by
    simp [stop_load, stop_load_body, gzip_guard_eq_false, hparse, hsize, hrender, hinvalid, data_free,
      Context.free]
  rw [key]
  exact ⟨rfl, by simp [Event.is_data_free], by simp [Event.is_notification],
    by simp [delivered]⟩

/-- Witness for C9: `svg0`, whose rendering is the null bitmap. -/
theorem invalid_bitmap_reports_witness :
    sampleLunasvg.loadFromData (session keep_size svg0).filebuf
        = Alloc.done (some { width := 0, height := 0 }) ∧
    (stop_load sampleGio sampleLunasvg (session keep_size svg0) (some none)).trace.filter
        Event.is_data_free
      = [Event.data_free { valid := false, data := [], width := 0, height := 0,
                           stride := 0 }] :=
  ⟨by decide,
   (invalid_bitmap_reports sampleGio sampleLunasvg (session keep_size svg0) none
      { width := 0, height := 0 } keep_size
      { valid := false, data := [], width := 0, height := 0, stride := 0 }
      (by decide) rfl (by decide) rfl).2.1⟩

/-- C7: for a parsed document and a supplied size callback `f`, the size
callback is called once with the document's intrinsic width and height, and the
one render request carries exactly the two integers `f` leaves behind.  In
particular, when `f` leaves (1, 1) the request is (1, 1) and, the rasterizer
honouring its contract, every image handed to the host is 1x1 with a row
stride of at least 4; such an image is handed over as soon as the bitmap is
valid and a notification callback is supplied. -/
theorem render_request_negotiated {Document : Type} (G : Gio) (L : Lunasvg Document)
    (ctx : Context) (error : ErrorPtr) (doc : Document) (f : SizeFunc)
    (hparse : L.loadFromData ctx.filebuf = Alloc.done (some doc))
    (hsize : ctx.size_func = some f) :
    (stop_load G L ctx error).trace.filter Event.is_sizing =
      [Event.size_func (L.width doc) (L.height doc) ctx.user_data,
       Event.renderToBitmap (f (L.width doc) (L.height doc) ctx.user_data).1
         (f (L.width doc) (L.height doc) ctx.user_data).2] ∧
    (f (L.width doc) (L.height doc) ctx.user_data = (1, 1) →
      Event.renderToBitmap 1 1 ∈ (stop_load G L ctx error).trace ∧
      (renders_at_request L →
        (∀ pbuf ∈ delivered (stop_load G L ctx error).trace,
          pbuf.width = 1 ∧ pbuf.height = 1 ∧ 4 ≤ pbuf.rowstride) ∧
        (∀ bmap, L.renderToBitmap doc 1 1 = Alloc.done bmap → bmap.valid = true →
          (stop_load G L ctx error).exit = Exit.returned true ∧
          (ctx.prepared_func.isSome = true ∨ ctx.updated_func.isSome = true →
            delivered (stop_load G L ctx error).trace ≠ [])))) := by
  constructor
  · simp only [stop_load, stop_load_body, gzip_guard_eq_false, hparse, hsize]
    cases L.renderToBitmap doc (f (L.width doc) (L.height doc) ctx.user_data).1
        (f (L.width doc) (L.height doc) ctx.user_data).2 with
    | bad_alloc => simp [Event.is_sizing]
    | done bmap =>
      cases hv : bmap.valid <;> cases error <;> cases ctx.prepared_func <;>
        cases ctx.updated_func <;> simp [hv, Event.is_sizing, data_free, Context.free]
  · intro h11
    simp only [stop_load, stop_load_body, gzip_guard_eq_false, hparse, hsize, h11]
    cases hr : L.renderToBitmap doc 1 1 with
    | bad_alloc => simp [delivered]
    | done bmap =>
      cases hv : bmap.valid with
      | false =>
        cases error <;> simp [hv, delivered, data_free, Context.free]
      | true =>
        refine ⟨?_, fun hc => ?_⟩
        · cases ctx.prepared_func <;> cases ctx.updated_func <;> simp [hv, Context.free]
        · obtain ⟨hw, hh, hs⟩ := hc doc 1 1 bmap (by decide) (by decide) hr hv
          cases ctx.prepared_func <;> cases ctx.updated_func <;>
            simp [hv, delivered, gdk_pixbuf_new_from_data, hw, hh, Context.free] <;> omega

/-- Witness for C7: `svg10` with a size callback that leaves (1, 1). -/
theorem render_request_negotiated_witness :
    sampleLunasvg.loadFromData (session one_by_one svg10).filebuf
        = Alloc.done (some { width := 10, height := 10 }) ∧
    (stop_load sampleGio sampleLunasvg (session one_by_one svg10) (some none)).trace.filter
        Event.is_sizing = [Event.size_func 10 10 7, Event.renderToBitmap 1 1] ∧
    (∀ pbuf ∈ delivered
        (stop_load sampleGio sampleLunasvg (session one_by_one svg10) (some none)).trace,
      pbuf.width = 1 ∧ pbuf.height = 1 ∧ 4 ≤ pbuf.rowstride) :=
  ⟨by decide,
   (render_request_negotiated sampleGio sampleLunasvg (session one_by_one svg10) (some none)
      { width := 10, height := 10 } one_by_one (by decide) rfl).1,
   (((render_request_negotiated sampleGio sampleLunasvg (session one_by_one svg10)
      (some none) { width := 10, height := 10 } one_by_one (by decide) rfl).2 rfl).2
      sample_renders_at_request).1⟩

/-- C3 (the code at the failing input): the condition of line 130 is false for
every buffer, so a buffer that starts with the gzip magic, here the gzip
stream `svg10_gz`, never enters the decompression branch: nothing is spliced
and the document loader is handed the compressed bytes. -/
theorem gzip_magic_never_detected :
    (∀ bufd, gzip_guard bufd = false) ∧
    spec_is_gzip svg10_gz = true ∧
    parsed (stop_load sampleGio sampleLunasvg (session keep_size svg10_gz) (some none)).trace
      = [svg10_gz] ∧
    Event.splice svg10_gz ∉
      (stop_load sampleGio sampleLunasvg (session keep_size svg10_gz) (some none)).trace := by
  refine ⟨?_, by decide, by decide, by decide⟩
  intro bufd
  have key : ∀ b : guchar, ((b == 0x1f) && (b == 0x8b)) = false := by
    intro b
    by_cases h : b = 0x1f
    · subst h
      decide
    · have hb : (b == 0x1f) = false := beq_eq_false_iff_ne.mpr h
      rw [hb, Bool.false_and]
  unfold gzip_guard
  rw [Bool.and_assoc, key, Bool.and_false]

/-- C4 (the code at the failing input): `svg10_gz` inflates to `svg10`, and
`stop_load` on `svg10` succeeds, yet `stop_load` on `svg10_gz` hands the
compressed bytes to the loader and fails with the parse error. -/
theorem gzip_input_not_inflated :
    spec_is_gzip svg10_gz = true ∧
    sampleGio.splice svg10_gz = Except.ok svg10 ∧
    (stop_load sampleGio sampleLunasvg (session keep_size svg10) (some none)).exit
      = Exit.returned true ∧
    stop_load sampleGio sampleLunasvg (session keep_size svg10_gz) (some none) =
      { exit := Exit.returned false,
        error := some (some (g_error_new G_IO_ERROR G_IO_ERROR_FAILED
                              "Failed loading document.")),
        trace := [Event.loadFromData svg10_gz, Event.g_free none, Event.Context_free] } := by
  refine ⟨by decide, by simp [sampleGio], by decide, by decide⟩

/-- C6 (the code at the failing input): `bad_gz` starts with the gzip magic and
the decompressor rejects it, yet `stop_load` reports the parse-stage error
"Failed loading document.", not the error of the decompressor. -/
theorem bad_gzip_reported_as_parse_error :
    spec_is_gzip bad_gz = true ∧
    sampleGio.splice bad_gz = Except.error sample_gzip_error ∧
    stop_load sampleGio sampleLunasvg (session keep_size bad_gz) (some none) =
      { exit := Exit.returned false,
        error := some (some (g_error_new G_IO_ERROR G_IO_ERROR_FAILED
                              "Failed loading document.")),
        trace := [Event.loadFromData bad_gz, Event.g_free none, Event.Context_free] } ∧
    (stop_load sampleGio sampleLunasvg (session keep_size bad_gz) (some none)).error
      ≠ some (some sample_gzip_error) := by
  refine ⟨by decide, by simp [sampleGio, bad_gz, svg10_gz], by decide, by decide⟩

/-- C10 (the code at the failing input): with a null error out-parameter the
parse-failure path (input `not svg`) and the invalid-bitmap path (input `svg0`)
both store through the null pointer: the run ends in a fault before the
session is released, instead of returning FALSE. -/
theorem null_error_is_written :
    stop_load sampleGio sampleLunasvg (session keep_size not_svg) none =
      { exit := Exit.segfault, error := none,
        trace := [Event.loadFromData not_svg, Event.g_free none] } ∧
    stop_load sampleGio sampleLunasvg (session keep_size svg0) none =
      { exit := Exit.segfault, error := none,
        trace := [Event.loadFromData svg0, Event.g_free none, Event.size_func 0 0 7,
                  Event.renderToBitmap 0 0] } := by
  refine ⟨by decide, by decide⟩

/-! ## Further properties -/

/-- Whatever the input, `stop_load` hands the document loader exactly the
accumulated session buffer, once, and never splices it through the
decompressor. -/
theorem loader_gets_session_buffer {Document : Type} (G : Gio) (L : Lunasvg Document)
    (ctx : Context) (error : ErrorPtr) :
    parsed (stop_load G L ctx error).trace = [ctx.filebuf] ∧
    ∀ input, Event.splice input ∉ (stop_load G L ctx error).trace := by
  cases hl : L.loadFromData ctx.filebuf with
  | bad_alloc => simp [stop_load, stop_load_body, gzip_guard_eq_false, hl, parsed]
  | done d =>
    cases d with
    | none =>
      cases error <;> simp [stop_load, stop_load_body, gzip_guard_eq_false, hl, parsed, Context.free]
    | some doc =>
      cases hs : ctx.size_func with
      | none => simp [stop_load, stop_load_body, gzip_guard_eq_false, hl, hs, parsed]
      | some f =>
        cases hr : L.renderToBitmap doc (f (L.width doc) (L.height doc) ctx.user_data).1
            (f (L.width doc) (L.height doc) ctx.user_data).2 with
        | bad_alloc => simp [stop_load, stop_load_body, gzip_guard_eq_false, hl, hs, hr, parsed]
        | done bmap =>
          cases hv : bmap.valid <;> cases error <;> cases hp : ctx.prepared_func <;>
            cases hu : ctx.updated_func <;>
            simp [stop_load, stop_load_body, gzip_guard_eq_false, hl, hs, hr, hv, hp, hu, parsed,
              data_free, Context.free]

/-- Both notification callbacks are optional: for a parsed document with a
valid bitmap, `stop_load` returns TRUE whichever of them are supplied, and the
notifications are the prepared call, if supplied, followed by the updated call
over the full region, if supplied. -/
theorem notifications_optional {Document : Type} (G : Gio) (L : Lunasvg Document)
    (ctx : Context) (error : ErrorPtr) (doc : Document) (f : SizeFunc) (bmap : Bitmap)
    (hparse : L.loadFromData ctx.filebuf = Alloc.done (some doc))
    (hsize : ctx.size_func = some f)
    (hrender : L.renderToBitmap doc (f (L.width doc) (L.height doc) ctx.user_data).1
        (f (L.width doc) (L.height doc) ctx.user_data).2 = Alloc.done bmap)
    (hvalid : bmap.valid = true) :
    (stop_load G L ctx error).exit = Exit.returned true ∧
    (stop_load G L ctx error).trace.filter Event.is_notification =
      (ctx.prepared_func.map (fun p => Event.prepared_func p
          (gdk_pixbuf_new_from_data bmap.data true 8 bmap.width bmap.height bmap.stride bmap)
          ctx.user_data)).toList ++
      (ctx.updated_func.map (fun u => Event.updated_func u
          (gdk_pixbuf_new_from_data bmap.data true 8 bmap.width bmap.height bmap.stride bmap)
          0 0 bmap.width bmap.height ctx.user_data)).toList := by
  cases hp : ctx.prepared_func <;> cases hu : ctx.updated_func <;>
    simp [stop_load, stop_load_body, gzip_guard_eq_false, hparse, hsize, hrender, hvalid, hp, hu,
      Event.is_notification, gdk_pixbuf_get_width, gdk_pixbuf_get_height, Context.free,
      gdk_pixbuf_new_from_data]

/-- Witness: `svg10` in a session without notification callbacks. -/
theorem notifications_optional_witness :
    sampleLunasvg.loadFromData svg10 = Alloc.done (some { width := 10, height := 10 }) ∧
    (stop_load sampleGio sampleLunasvg
        { filebuf := svg10, size_func := some one_by_one, prepared_func := none,
          updated_func := none, user_data := 7 } none).exit = Exit.returned true :=
  ⟨by decide,
   (notifications_optional sampleGio sampleLunasvg
      { filebuf := svg10, size_func := some one_by_one, prepared_func := none,
        updated_func := none, user_data := 7 } none
      { width := 10, height := 10 } one_by_one
      { valid := true, data := [0, 0, 0, 0], width := 1, height := 1, stride := 4 }
      (by decide) rfl (by decide) rfl).1⟩

/-- The size callback is called without a null test: for a parsed document and
a null `size_func` the run ends in a fault, before any render and before the
session is released. -/
theorem null_size_func_faults {Document : Type} (G : Gio) (L : Lunasvg Document)
    (ctx : Context) (error : ErrorPtr) (doc : Document)
    (hparse : L.loadFromData ctx.filebuf = Alloc.done (some doc))
    (hsize : ctx.size_func = none) :
    stop_load G L ctx error =
      { exit := Exit.segfault, error := error.map (fun _ => none),
        trace := [Event.loadFromData ctx.filebuf, Event.g_free none] } := by
  simp [stop_load, stop_load_body, gzip_guard_eq_false, hparse, hsize]

/-- Witness: `svg10` in a session created without a size callback. -/
theorem null_size_func_faults_witness :
    sampleLunasvg.loadFromData svg10 = Alloc.done (some { width := 10, height := 10 }) ∧
    (stop_load sampleGio sampleLunasvg
        (load_increment (begin_load none (some 1) (some 2) 7 none).1 svg10 none).2.1
        (some none)).exit = Exit.segfault :=
  ⟨by decide,
   congrArg Outcome.exit
     (null_size_func_faults sampleGio sampleLunasvg
       (load_increment (begin_load none (some 1) (some 2) 7 none).1 svg10 none).2.1
       (some none) { width := 10, height := 10 } (by decide) rfl)⟩

end PixbufLoaderSvg
